import Mathlib

/-!
Shallow embedding of the registry-proxy sources of gitlayzer/docker-proxy-vercel.

The repository ships several near-duplicate handler variants:
  src/api/proxy.js            (the named API route; routeByHosts, parseAuthenticate,
                               fetchToken, responseUnauthorized, handler)
  src/unnamed/part_000        (handler with fixResponse/handleAuth/responseUnauthorized)
  src/unnamed/part_001        (handler forcing upstream GET, forceContentLength)
  src/unnamed/part_003        (handler forcing upstream GET, strict fixResponse)

This file embeds the pure per-request logic of these variants: hostname routing,
the Docker Hub library path and scope rewrites, the quoted-value extraction of
WWW-Authenticate, token-request construction, redirect resolution decisions and
the response-normalisation functions.  Network effects (fetch) are modelled by
making the upstream response an explicit argument of the step functions.
-/

/-- The closing double-quote character, written via its code point. -/
def dq : Char := Char.ofNat 34

/-- The backslash character, written via its code point. -/
def bs : Char := Char.ofNat 92

/-- Lower-case a string character by character; JS Headers keys are
case-insensitive, which the sources rely on (they set "Content-Length"
and read "content-length"). -/
def lowerStr (s : String) : String := String.mk (s.data.map Char.toLower)

/-- Header lists.  Keys are stored lower-cased, mirroring the
case-insensitive JS Headers object. -/
abbrev HList := List (String × String)

/-- Headers.set: replace the value of an existing (case-insensitive) key in
place, else append the pair at the end. -/
def hset : HList → String → String → HList
  | [], k, v => [(lowerStr k, v)]
  | (k', v') :: t, k, v =>
    if k' = lowerStr k then (k', v) :: t else (k', v') :: hset t k v

/-- Headers.get: case-insensitive lookup, `none` for an absent header. -/
def hget (h : HList) (k : String) : Option String :=
  List.lookup (lowerStr k) h

/-- Headers.delete: remove every entry with the given (case-insensitive) key. -/
def hdel : HList → String → HList
  | [], _ => []
  | (k', v') :: t, k =>
    if k' = lowerStr k then hdel t k else (k', v') :: hdel t k

/-- JS String.prototype.split with a single-character separator:
"a//b".split("/") = ["a","","b"], leading and trailing separators produce
empty components, and the result is never the empty list. -/
def splitOnChar (sep : Char) : List Char → List (List Char)
  | [] => [[]]
  | c :: cs =>
    if c = sep then [] :: splitOnChar sep cs
    else
      match splitOnChar sep cs with
      | [] => [[c]]
      | s :: rest => (c :: s) :: rest

/-- JS Array.prototype.join with a single-character separator. -/
def joinWith (sep : Char) : List (List Char) → List Char
  | [] => []
  | [x] => x
  | x :: y :: t => x ++ sep :: joinWith sep (y :: t)

/-- `parts.splice(2, 0, x)`: insert one element at index 2. -/
def insertAt2 (x : List Char) (l : List (List Char)) : List (List Char) :=
  l.take 2 ++ x :: l.drop 2

/-- Whether the first list is a prefix of the second (decidable, by scan). -/
def listPrefix : List Char → List Char → Bool
  | [], _ => true
  | _ :: _, [] => false
  | a :: as, b :: bs2 => a = b && listPrefix as bs2

/-- Whether the first list occurs contiguously inside the second. -/
def listInfix : List Char → List Char → Bool
  | sub, [] => listPrefix sub []
  | sub, c :: rest => listPrefix sub (c :: rest) || listInfix sub rest

/-- JS String.prototype.includes for substrings. -/
def containsSub (s sub : String) : Bool :=
  listInfix sub.data s.data

/-- Byte count of one character under UTF-8, as produced by TextEncoder
or by reading a JS string body into an ArrayBuffer. -/
def utf8CharLen (c : Char) : Nat :=
  if c.toNat < 0x80 then 1
  else if c.toNat < 0x800 then 2
  else if c.toNat < 0x10000 then 3
  else 4

/-- Exact byte length of a string body (ArrayBuffer.byteLength /
Buffer.byteLength of its UTF-8 encoding). -/
def utf8Size (s : String) : Nat :=
  s.data.foldl (fun n c => n + utf8CharLen c) 0

/-- Upstream response as observed by the handlers: status, headers and the
fully received body bytes (a JS string standing for the byte content; the
body of an upstream HEAD answer is empty). -/
structure UResp where
  status : Nat
  headers : HList
  body : String
deriving DecidableEq, Repr

/-- Outbound response built by the handlers: status, headers, and either a
body or `none` (a JS `new Response(null, ...)`). -/
structure Resp where
  status : Nat
  headers : HList
  body : Option String
deriving DecidableEq, Repr

/-- Greedy body of the source regex /(?<=\=")(?:\\.|[^"\\])*(?=")/ starting at
the given characters: consume escape pairs and non-quote, non-backslash
characters, and succeed exactly when the next unconsumed character is a
double quote (the lookahead).  Returns the matched body and the rest of the
input beginning at that closing quote.  Greedy matching without backtracking
coincides with the regex here because no alternative of the starred group can
begin with a double quote. -/
def eqBody : List Char → Option (List Char × List Char)
  | [] => none
  | c :: rest =>
    if c = dq then some ([], c :: rest)
    else if c = bs then
      match rest with
      | [] => none
      | d :: rest2 =>
        match eqBody rest2 with
        | some (b, r) => some (c :: d :: b, r)
        | none => none
    else
      match eqBody rest with
      | some (b, r) => some (c :: b, r)
      | none => none

/-- Scan of String.prototype.match with the global regex above: walk the
string one position at a time, record a body wherever the two preceding
characters are an equals sign and a double quote (the lookbehind) and the
body match succeeds.  `p2` and `p1` carry the two previously consumed
characters. -/
def scanQ : Option Char → Option Char → List Char → List (List Char)
  | _, _, [] => []
  | p2, p1, c :: rest =>
    let tail := scanQ p1 (some c) rest
    if p2 = some '=' ∧ p1 = some dq then
      match eqBody (c :: rest) with
      | some (b, _) => b :: tail
      | none => tail
    else tail

/-- authenticateStr.match(/(?<=\=")(?:\\.|[^"\\])*(?=")/g), as a list of the
matched quoted values (empty list standing for a null match result). -/
def extractQuoted (s : String) : List String :=
  (scanQ none none s.data).map String.mk

/-- Split a character list at the first occurrence of `sep`, if any. -/
def splitFirstAt (sep : Char) : List Char → Option (List Char × List Char)
  | [] => none
  | c :: rest =>
    if c = sep then some ([], rest)
    else
      match splitFirstAt sep rest with
      | some (pre, post) => some (c :: pre, post)
      | none => none

/-- Base of `new URL(realm)`: everything before the first question mark.
Faithful for realm strings without fragments or percent-escapes, which is
the shape of every WWW-Authenticate realm the relay handles. -/
def realmBase (realm : String) : String :=
  match splitFirstAt '?' realm.data with
  | some (pre, _) => String.mk pre
  | none => realm

/-- One `key=value` pair of a query string. -/
def queryPair (l : List Char) : String × String :=
  match splitFirstAt '=' l with
  | some (k, v) => (String.mk k, String.mk v)
  | none => (String.mk l, "")

/-- searchParams of `new URL(realm)`: the pairs after the first question
mark, empty when there is no query. -/
def realmParams (realm : String) : List (String × String) :=
  match splitFirstAt '?' realm.data with
  | some (_, post) =>
    if post = [] then [] else (splitOnChar '&' post).map queryPair
  | none => []

/-- url.searchParams.set(k, v): replace the value of an existing key in
place, else append (faithful when the key occurs at most once, which holds
for every use in the sources). -/
def paramSet : List (String × String) → String → String → List (String × String)
  | [], k, v => [(k, v)]
  | (k', v') :: t, k, v =>
    if k' = k then (k, v) :: t else (k', v') :: paramSet t k v

/-- The outbound token-issuer request the auth relay builds: GET to
`base` with `params` as the query and `headers` (the client's
Authorization when supplied). -/
structure TokenReq where
  base : String
  params : List (String × String)
  headers : HList
deriving DecidableEq, Repr

/-- The Docker Hub scope rewrite shared verbatim by every variant:
split on colons; when there are exactly three parts and the middle one has
no slash, prefix it with library/. -/
def rewriteScope (scope : String) : String :=
  let scopeParts := splitOnChar ':' scope.data
  if scopeParts.length = 3 ∧ '/' ∉ (scopeParts[1]?.getD []) then
    String.mk (joinWith ':'
      (scopeParts.take 1 ++ ("library/".data ++ scopeParts[1]?.getD []) :: scopeParts.drop 2))
  else scope

/-- `if (scope && isDockerHub) rewrite`: the scope actually used by the
token request; an empty string is falsy in JS and is left alone. -/
def effectiveScope (isDockerHub : Bool) : Option String → Option String
  | none => none
  | some s => if s = "" then some s else if isDockerHub then some (rewriteScope s) else some s

/-- The rewritten path with "library" spliced in as third component. -/
def v2LibPath (p : String) : String :=
  String.mk (joinWith '/' (insertAt2 "library".data (splitOnChar '/' p.data)))

/-- Guard of the library rewrite: splitting the pathname on slashes gives
exactly five components, the second is "v2" and the third has no slash. -/
def v2LibCond (p : String) : Prop :=
  (splitOnChar '/' p.data).length = 5
    ∧ (splitOnChar '/' p.data)[1]?.getD [] = "v2".data
    ∧ '/' ∉ ((splitOnChar '/' p.data)[2]?.getD [])

instance v2LibCondDec (p : String) : Decidable (v2LibCond p) := by
  unfold v2LibCond; infer_instance

/-- The Docker Hub library path rewrite of the handler variants
(part_000 line 53, part_001 line 46, part_002 line 51, part_003 line 45,
part_004 line 116): split the pathname on slashes; when there are exactly
five components, the second is "v2" and the third has no slash, insert
"library" as the third component. -/
def rewritePath (p : String) : String :=
  if v2LibCond p then v2LibPath p else p

/-- Environment configuration: CUSTOM_DOMAIN, MODE (after its
"production" default) and TARGET_UPSTREAM (after its "" default). -/
structure Cfg where
  domain : String
  mode : String
  target : String
deriving DecidableEq, Repr

/-- The inbound request fields the handlers read from `new URL(request.url)`
and from the request itself. -/
structure Req where
  proto : String
  host : String
  hostname : String
  path : String
  search : String
  method : String
  authorization : Option String
deriving DecidableEq, Repr

/-- The Docker Hub upstream constant of every variant. -/
def dockerHub : String := "https://registry-1.docker.io"

/-- Parsed WWW-Authenticate challenge: realm and service. -/
structure Challenge where
  realm : String
  service : String
deriving DecidableEq, Repr

/-- Outcome of the auth relay once the anonymous probe has answered:
return the probe response unchanged, raise an error (src/api/proxy.js
only), or issue a token request. -/
inductive AuthOutcome where
  | pass (r : UResp)
  | err (msg : String)
  | token (t : TokenReq)
deriving DecidableEq, Repr

/-- Outcome of the forward step once the upstream has answered: emit a
response, or re-issue a request to a redirect Location with the given
method (and, in part_000, an Authorization value). -/
inductive Step where
  | done (r : Resp)
  | refetch (location : String) (method : String) (auth : Option String)
deriving DecidableEq, Repr

namespace proxyJs

/-- The route table of src/api/proxy.js lines 14-24 (nine entries,
including docker-staging). -/
def routes (cfg : Cfg) : List (String × String) :=
  [("docker." ++ cfg.domain, dockerHub),
   ("quay." ++ cfg.domain, "https://quay.io"),
   ("gcr." ++ cfg.domain, "https://gcr.io"),
   ("k8s-gcr." ++ cfg.domain, "https://k8s.gcr.io"),
   ("k8s." ++ cfg.domain, "https://registry.k8s.io"),
   ("ghcr." ++ cfg.domain, "https://ghcr.io"),
   ("cloudsmith." ++ cfg.domain, "https://docker.cloudsmith.io"),
   ("ecr." ++ cfg.domain, "https://public.ecr.aws"),
   ("docker-staging." ++ cfg.domain, dockerHub)]

/-- routeByHosts of src/api/proxy.js lines 27-31: the table entry when the
host is present, TARGET_UPSTREAM in debug mode, else the empty string. -/
def routeByHosts (cfg : Cfg) (host : String) : String :=
  match (routes cfg).lookup host with
  | some u => u
  | none => if cfg.mode = "debug" then cfg.target else ""

/-- JSON.stringify of the not-found body of src/api/proxy.js line 44, an
object whose single field is the route table. -/
def jsonRoutes (cfg : Cfg) : String :=
  "\x7b\"routes\":\x7b"
    ++ String.intercalate ","
        ((routes cfg).map (fun kv => "\"" ++ kv.1 ++ "\":\"" ++ kv.2 ++ "\""))
    ++ "\x7d\x7d"

/-- responseUnauthorized of src/api/proxy.js lines 168-177: the realm
scheme is http in debug mode and https otherwise, the realm host is
url.host of the inbound request, and the only header set is
Www-Authenticate. -/
def responseUnauthorized (cfg : Cfg) (host : String) : Resp :=
  let realm := (if cfg.mode = "debug" then "http" else "https") ++ "://" ++ host ++ "/v2/auth"
  ⟨401,
   hset [] "Www-Authenticate"
     ("Bearer realm=\"" ++ realm ++ "\",service=\"vercel-docker-proxy\""),
   some "\x7b\"message\":\"UNAUTHORIZED\"\x7d"⟩

/-- parseAuthenticate of src/api/proxy.js lines 151-156: quoted-value
extraction; fewer than two matches raises. -/
def parseAuthenticate (authenticateStr : String) : Except String Challenge :=
  let ms := extractQuoted authenticateStr
  if ms.length < 2 then Except.error "Invalid Www-Authenticate Header"
  else Except.ok ⟨ms.getD 0 "", ms.getD 1 ""⟩

/-- fetchToken of src/api/proxy.js lines 158-166: GET to the realm with
service and scope set when truthy, forwarding Authorization when
supplied. -/
def fetchToken (wwwAuthenticate : Challenge) (scope : Option String)
    (authorization : Option String) : TokenReq :=
  let ps0 := realmParams wwwAuthenticate.realm
  let ps1 := if wwwAuthenticate.service ≠ "" then paramSet ps0 "service" wwwAuthenticate.service else ps0
  let ps2 := match scope with
    | some s => if s ≠ "" then paramSet ps1 "scope" s else ps1
    | none => ps1
  let headers : HList := match authorization with
    | some a => hset [] "Authorization" a
    | none => []
  ⟨realmBase wwwAuthenticate.realm, ps2, headers⟩

/-- What the src/api/proxy.js handler decides before its first upstream
call. -/
inductive Dispatch where
  | homeRedirect (target : String)
  | notFound (r : Resp)
  | v2probe (upstream : String) (authorization : Option String)
  | authProbe (upstream : String)
  | libraryRedirect (path : String)
  | forward (url : String) (method : String) (redirectManual : Bool)
deriving DecidableEq, Repr

/-- Dispatch of src/api/proxy.js handler lines 34-107: home redirect,
route-table miss, /v2/ probe, /v2/auth, the Docker Hub library redirect
(any five-component path), else forward with manual redirects for Docker
Hub only. -/
def dispatch (cfg : Cfg) (req : Req) : Dispatch :=
  if req.path = "/" then .homeRedirect (req.proto ++ "//" ++ req.host ++ "/v2/")
  else
    let upstream := routeByHosts cfg req.hostname
    if upstream = "" then .notFound ⟨404, [], some (jsonRoutes cfg)⟩
    else
      let isDockerHub := upstream == dockerHub
      if req.path = "/v2/" then .v2probe upstream req.authorization
      else if req.path = "/v2/auth" then .authProbe upstream
      else if isDockerHub && (splitOnChar '/' req.path.data).length == 5 then
        .libraryRedirect
          (String.mk (joinWith '/' (insertAt2 "library".data (splitOnChar '/' req.path.data))))
      else .forward (upstream ++ req.path ++ req.search) req.method isDockerHub

/-- The final pass-through of src/api/proxy.js lines 139-147: copy the
upstream headers, set the api-version header, keep status and body.  No
Content-Length of its own is computed. -/
def finalize (resp : UResp) : Resp :=
  let finalHeaders := hset resp.headers "Docker-Distribution-Api-Version" "registry/2.0"
  ⟨resp.status, finalHeaders, some resp.body⟩

/-- The redirect resolution of src/api/proxy.js lines 119-135: the
re-fetched response is passed through with CORS and api-version headers. -/
def finishRedirect (blobResp : UResp) : Resp :=
  let h1 := hset blobResp.headers "Access-Control-Allow-Origin" "*"
  let h2 := hset h1 "Docker-Distribution-Api-Version" "registry/2.0"
  ⟨blobResp.status, h2, some blobResp.body⟩

/-- src/api/proxy.js handler lines 111-147, after the forwarded request
returned: a 401 becomes the proxy's own 401; for Docker Hub only, a
301/302/307 with a Location is re-fetched with method GET; everything
else is passed through. -/
def afterForward (cfg : Cfg) (req : Req) (isDockerHub : Bool) (resp : UResp) : Step :=
  if resp.status = 401 then .done (responseUnauthorized cfg req.host)
  else if isDockerHub && (resp.status == 301 || resp.status == 302 || resp.status == 307) then
    match hget resp.headers "Location" with
    | some location => .refetch location "GET" none
    | none => .done (finalize resp)
  else .done (finalize resp)

/-- src/api/proxy.js handler lines 67-88 (the /v2/auth branch) after the
anonymous probe returned: pass a non-401 or challenge-less probe through;
raise on a malformed challenge (parseAuthenticate); else build the token
request with the Docker Hub scope rewrite applied. -/
def authFlow (isDockerHub : Bool) (scope : Option String)
    (authorization : Option String) (resp : UResp) : AuthOutcome :=
  if resp.status ≠ 401 then .pass resp
  else
    match hget resp.headers "WWW-Authenticate" with
    | none => .pass resp
    | some authenticateStr =>
      match parseAuthenticate authenticateStr with
      | .error e => .err e
      | .ok wwwAuthenticate =>
        .token (fetchToken wwwAuthenticate (effectiveScope isDockerHub scope) authorization)

end proxyJs

namespace part000

/-- The route table of src/unnamed/part_000 lines 10-19 (eight entries). -/
def routes (cfg : Cfg) : List (String × String) :=
  [("docker." ++ cfg.domain, dockerHub),
   ("quay." ++ cfg.domain, "https://quay.io"),
   ("gcr." ++ cfg.domain, "https://gcr.io"),
   ("k8s-gcr." ++ cfg.domain, "https://k8s.gcr.io"),
   ("k8s." ++ cfg.domain, "https://registry.k8s.io"),
   ("ghcr." ++ cfg.domain, "https://ghcr.io"),
   ("cloudsmith." ++ cfg.domain, "https://docker.cloudsmith.io"),
   ("ecr." ++ cfg.domain, "https://public.ecr.aws")]

/-- The 404 of src/unnamed/part_000 lines 27-33: body JSON with fields
message, hostname, tip; no headers are set. -/
def notFoundResp (hostname : String) : Resp :=
  ⟨404, [],
   some ("\x7b\"message\":\"Host Not Found\",\"hostname\":\"" ++ hostname
     ++ "\",\"tip\":\"请检查环境变量 CUSTOM_DOMAIN 配置是否正确\"\x7d")⟩

/-- responseUnauthorized of src/unnamed/part_000 lines 179-189:
https realm at the inbound hostname, JSON content type. -/
def responseUnauthorized (hostname : String) : Resp :=
  let authRealm := "https://" ++ hostname ++ "/v2/auth"
  let h1 := hset [] "Www-Authenticate"
    ("Bearer realm=\"" ++ authRealm ++ "\",service=\"vercel-docker-proxy\"")
  let h2 := hset h1 "Content-Type" "application/json"
  ⟨401, h2, some "\x7b\"message\":\"UNAUTHORIZED\"\x7d"⟩

/-- fixResponse of src/unnamed/part_000 lines 96-133: inject the
protocol headers; for JSON or manifest content types materialize the body
and set Content-Length to its exact byte count (and drop the body for
HEAD); for other bodies copy the upstream Content-Length when present
(and drop the body for HEAD). -/
def fixResponse (resp : UResp) (originalMethod : String) : Resp :=
  let h1 := hset resp.headers "Docker-Distribution-Api-Version" "registry/2.0"
  let h2 := hset h1 "Access-Control-Allow-Origin" "*"
  let h3 := hset h2 "Access-Control-Expose-Headers" "Docker-Content-Digest, Content-Length"
  let contentLength := hget resp.headers "content-length"
  let contentType := (hget resp.headers "content-type").getD ""
  if containsSub contentType "json" || containsSub contentType "manifest" then
    let actualLength := toString (utf8Size resp.body)
    let h4 := hset h3 "Content-Length" actualLength
    if originalMethod = "HEAD" then ⟨resp.status, h4, none⟩
    else ⟨resp.status, h4, some resp.body⟩
  else
    let h4 := match contentLength with
      | some cl => hset h3 "Content-Length" cl
      | none => h3
    if originalMethod = "HEAD" then ⟨resp.status, h4, none⟩
    else ⟨resp.status, h4, some resp.body⟩

/-- What the src/unnamed/part_000 handler decides before its first
upstream call (lines 21-67): route-table miss, home redirect, /v2/auth,
the library redirect, else forward with the client's method and manual
redirects. -/
inductive Dispatch where
  | notFound (r : Resp)
  | homeRedirect (target : String)
  | auth (upstream : String)
  | libraryRedirect (path : String)
  | forward (url : String) (method : String)
deriving DecidableEq, Repr

/-- Dispatch of src/unnamed/part_000 handler lines 21-67. -/
def dispatch (cfg : Cfg) (req : Req) : Dispatch :=
  let upstream := ((routes cfg).lookup req.hostname).getD ""
  if upstream = "" then .notFound (notFoundResp req.hostname)
  else
    let isDockerHub := upstream == dockerHub
    if req.path = "/" then .homeRedirect (req.proto ++ "//" ++ req.host ++ "/v2/")
    else if req.path = "/v2/auth" then .auth upstream
    else if isDockerHub && decide (v2LibCond req.path) then
      .libraryRedirect (v2LibPath req.path)
    else .forward (upstream ++ req.path ++ req.search) req.method

/-- src/unnamed/part_000 handler lines 72-91, after the forwarded request
returned: any 301/302/307/308 with a Location is re-fetched with the
client's original method and an Authorization header set to the client's
value or the empty string; otherwise a 401 becomes the proxy's own 401,
and everything else goes through fixResponse. -/
def afterForward (req : Req) (resp : UResp) : Step :=
  let isRedirect := resp.status == 301 || resp.status == 302
    || resp.status == 307 || resp.status == 308
  match (if isRedirect then hget resp.headers "Location" else none) with
  | some location => .refetch location req.method (some (req.authorization.getD ""))
  | none =>
    if resp.status = 401 then .done (responseUnauthorized req.hostname)
    else .done (fixResponse resp req.method)

/-- The continuation of the redirect branch (line 80): the re-fetched
response is normalized by fixResponse with the client's method. -/
def resolveRedirect (blobResp : UResp) (method : String) : Resp :=
  fixResponse blobResp method

/-- handleAuth of src/unnamed/part_000 lines 138-174, after the anonymous
probe returned: pass through a non-401 probe, a missing WWW-Authenticate,
or one with fewer than two quoted values; else build the token request
with the Docker Hub scope rewrite. -/
def handleAuthStep (isDockerHub : Bool) (scope : Option String)
    (authorization : Option String) (resp : UResp) : AuthOutcome :=
  if resp.status ≠ 401 then .pass resp
  else
    match hget resp.headers "WWW-Authenticate" with
    | none => .pass resp
    | some authenticateStr =>
      let ms := extractQuoted authenticateStr
      if ms.length < 2 then .pass resp
      else
        let realm := ms.getD 0 ""
        let service := ms.getD 1 ""
        let ps0 := realmParams realm
        let ps1 := if service ≠ "" then paramSet ps0 "service" service else ps0
        let scope2 := effectiveScope isDockerHub scope
        let ps2 := match scope2 with
          | some sc => if sc ≠ "" then paramSet ps1 "scope" sc else ps1
          | none => ps1
        let headers : HList := match authorization with
          | some a => hset [] "Authorization" a
          | none => []
        .token ⟨realmBase realm, ps2, headers⟩

end part000

namespace part001

/-- forceContentLength of src/unnamed/part_001 lines 76-97: buffer the
body, set Content-Length to its exact byte count, drop transfer-encoding,
and return the body (the platform strips it for HEAD). -/
def forceContentLength (resp : UResp) : Resp :=
  let h1 := hset resp.headers "Docker-Distribution-Api-Version" "registry/2.0"
  let h2 := hset h1 "Access-Control-Allow-Origin" "*"
  let h3 := hset h2 "Content-Length" (toString (utf8Size resp.body))
  let h4 := hdel h3 "transfer-encoding"
  ⟨resp.status, h4, some resp.body⟩

/-- src/unnamed/part_001 lines 43-50: the path actually forwarded, with
the library rewrite applied silently for Docker Hub. -/
def currentPath (isDockerHub : Bool) (p : String) : String :=
  if isDockerHub then rewritePath p else p

/-- src/unnamed/part_001 lines 55-60: the forwarded request is always a
GET, whatever the client's method, so that the body (and hence the exact
Content-Length) is available even for client HEAD requests. -/
def forwardReq (upstream : String) (req : Req) : String × String :=
  (upstream ++ currentPath (upstream == dockerHub) req.path ++ req.search, "GET")

end part001

namespace part003

/-- fixResponse of src/unnamed/part_003 lines 73-93: buffer the body, set
Content-Length to its exact byte count, drop transfer-encoding, set
Connection, and return the body (the platform strips it for HEAD). -/
def fixResponse (resp : UResp) (originalMethod : String) : Resp :=
  let h1 := hset resp.headers "Docker-Distribution-Api-Version" "registry/2.0"
  let h2 := hset h1 "Access-Control-Allow-Origin" "*"
  let h3 := hset h2 "Content-Length" (toString (utf8Size resp.body))
  let h4 := hdel h3 "transfer-encoding"
  let h5 := hset h4 "Connection" "keep-alive"
  ⟨resp.status, h5, some resp.body⟩

/-- responseUnauthorized of src/unnamed/part_003 lines 95-106: the 401
body is materialized and its exact byte count is set as Content-Length. -/
def responseUnauthorized (hostname : String) : Resp :=
  let bodyText := "\x7b\"message\":\"UNAUTHORIZED\"\x7d"
  let h1 := hset [] "Www-Authenticate"
    ("Bearer realm=\"https://" ++ hostname ++ "/v2/auth\",service=\"vercel-docker-proxy\"")
  let h2 := hset h1 "Content-Type" "application/json; charset=utf-8"
  let h3 := hset h2 "Content-Length" (toString (utf8Size bodyText))
  let h4 := hset h3 "Docker-Distribution-Api-Version" "registry/2.0"
  ⟨401, h4, some bodyText⟩

/-- src/unnamed/part_003 lines 52-57: like part_001, the upstream request
is always a GET. -/
def forwardReq (upstream : String) (req : Req) : String × String :=
  (upstream ++ (if upstream == dockerHub then rewritePath req.path else req.path) ++ req.search, "GET")

end part003

/-- A production-mode configuration used by concrete instances. -/
def cfgProd : Cfg := ⟨"example.com", "production", ""⟩

/-- A debug-mode configuration with a non-empty TARGET_UPSTREAM. -/
def cfgDebug : Cfg := ⟨"example.com", "debug", "http://localhost:5000"⟩

/-- A GET manifest request on the Docker-Hub-mapped hostname. -/
def reqGet : Req :=
  ⟨"https:", "docker.example.com", "docker.example.com",
   "/v2/library/nginx/manifests/latest", "", "GET", none⟩

/-- The same manifest request issued with method HEAD. -/
def reqHead : Req :=
  ⟨"https:", "docker.example.com", "docker.example.com",
   "/v2/library/nginx/manifests/latest", "", "HEAD", none⟩

/-- A request arriving at a hostname absent from every route table. -/
def reqUnknownHost : Req :=
  ⟨"https:", "evil.example.com", "evil.example.com",
   "/v2/library/nginx/manifests/latest", "", "GET", none⟩

/-- An upstream answer to a manifest GET: JSON content type, two-byte
body. -/
def uGetManifest : UResp :=
  ⟨200,
   [("content-type", "application/vnd.docker.distribution.manifest.v2+json"),
    ("content-length", "2")],
   "\x7b\x7d"⟩

/-- The upstream answer to the corresponding HEAD: same headers, empty
body, as the registry protocol prescribes for HEAD. -/
def uHeadManifest : UResp :=
  ⟨200,
   [("content-type", "application/vnd.docker.distribution.manifest.v2+json"),
    ("content-length", "2")],
   ""⟩

/-- An upstream 401 whose challenge has a single quoted value. -/
def uBadChallenge : UResp :=
  ⟨401, [("www-authenticate", "Bearer realm=\"https://auth.example\"")], ""⟩

/-- An upstream 302 blob redirect with a Location header. -/
def uBlobRedirect : UResp :=
  ⟨302, [("location", "https://cdn.example/blob")], ""⟩

/-- An upstream 308 redirect with a Location header. -/
def uRedirect308 : UResp :=
  ⟨308, [("location", "https://cdn.example/blob")], ""⟩

/-- A bare upstream 401 on a forwarded request. -/
def u401 : UResp := ⟨401, [], ""⟩

theorem splitOnChar_ne_nil (sep : Char) (l : List Char) :
    splitOnChar sep l ≠ [] := by
  induction l with
  | nil => simp [splitOnChar]
  | cons c cs ih =>
    by_cases h : c = sep
    · simp [splitOnChar, h]
    · simp only [splitOnChar, if_neg h]
      cases hs : splitOnChar sep cs with
      | nil => exact absurd hs ih
      | cons s rest => simp

theorem splitOnChar_of_not_mem {sep : Char} {l : List Char} (h : sep ∉ l) :
    splitOnChar sep l = [l] := by
  induction l with
  | nil => rfl
  | cons c cs ih =>
    have hc : c ≠ sep := fun e => h (e ▸ List.mem_cons_self c cs)
    have hcs : sep ∉ cs := fun m => h (List.mem_cons_of_mem c m)
    simp [splitOnChar, hc, ih hcs]

theorem splitOnChar_append {sep : Char} {xs : List Char} (ys : List Char)
    (h : sep ∉ xs) :
    splitOnChar sep (xs ++ sep :: ys) = xs :: splitOnChar sep ys := by
  induction xs with
  | nil => simp [splitOnChar]
  | cons c cs ih =>
    have hc : c ≠ sep := fun e => h (e ▸ List.mem_cons_self c cs)
    have hcs : sep ∉ cs := fun m => h (List.mem_cons_of_mem c m)
    simp [splitOnChar, hc, ih hcs]

theorem hget_hset_eq (h : HList) (k k' v : String) (e : lowerStr k' = lowerStr k) :
    hget (hset h k v) k' = some v := by
  induction h with
  | nil =>
    have : (lowerStr k' == lowerStr k) = true := beq_iff_eq.mpr e
    simp [hget, hset, List.lookup, this]
  | cons p t ih =>
    obtain ⟨k0, v0⟩ := p
    by_cases hk : k0 = lowerStr k
    · have : (lowerStr k' == k0) = true := beq_iff_eq.mpr (hk ▸ e)
      simp [hget, hset, hk, List.lookup, this, e]
    · have hne : (lowerStr k' == k0) = false :=
        beq_eq_false_iff_ne.mpr (by rw [e]; exact fun ee => hk ee.symm)
      simpa [hget, hset, hk, List.lookup, hne] using ih

theorem hget_hset_ne (h : HList) (k k' v : String) (e : lowerStr k' ≠ lowerStr k) :
    hget (hset h k v) k' = hget h k' := by
  induction h with
  | nil =>
    have : (lowerStr k' == lowerStr k) = false := beq_eq_false_iff_ne.mpr e
    simp [hget, hset, List.lookup, this]
  | cons p t ih =>
    obtain ⟨k0, v0⟩ := p
    by_cases hk : k0 = lowerStr k
    · have hne : (lowerStr k' == lowerStr k) = false := beq_eq_false_iff_ne.mpr e
      simp [hget, hset, hk, List.lookup, hne]
    · by_cases hq : lowerStr k' = k0
      · have : (lowerStr k' == k0) = true := beq_iff_eq.mpr hq
        simp [hget, hset, hk, List.lookup, this]
      · have hne : (lowerStr k' == k0) = false := beq_eq_false_iff_ne.mpr hq
        simpa [hget, hset, hk, List.lookup, hne] using ih

theorem hget_hdel_ne (h : HList) (k k' : String) (e : lowerStr k' ≠ lowerStr k) :
    hget (hdel h k) k' = hget h k' := by
  induction h with
  | nil => simp [hdel]
  | cons p t ih =>
    obtain ⟨k0, v0⟩ := p
    by_cases hk : k0 = lowerStr k
    · have hne : (lowerStr k' == lowerStr k) = false := beq_eq_false_iff_ne.mpr e
      simpa [hget, hdel, hk, List.lookup, hne] using ih
    · by_cases hq : lowerStr k' = k0
      · have : (lowerStr k' == k0) = true := beq_iff_eq.mpr hq
        simp [hget, hdel, hk, List.lookup, this]
      · have hne : (lowerStr k' == k0) = false := beq_eq_false_iff_ne.mpr hq
        simpa [hget, hdel, hk, List.lookup, hne] using ih

theorem strEq_of_data {s t : String} (h : s.data = t.data) : s = t := by
  cases s; cases t; exact congrArg String.mk (by simpa using h)

/-- Claim C3: for every request path of the form /v2/(name)/(kind)/(ref)
whose name contains no slash (kind being manifests or blobs), the library
rewrite shared by the handler variants produces /v2/library/(name)/(kind)/(ref),
and the forwarded URL of the part_001 handler uses exactly this rewritten
path for the Docker Hub upstream; every path splitting into a number of
slash-components other than five is passed through unchanged. -/
theorem C3_library_path_rewrite (name kind ref : String)
    (hn : ('/' : Char) ∉ name.data) (hk : ('/' : Char) ∉ kind.data)
    (hr : ('/' : Char) ∉ ref.data) :
    rewritePath ("/v2/" ++ name ++ "/" ++ kind ++ "/" ++ ref)
      = "/v2/library/" ++ name ++ "/" ++ kind ++ "/" ++ ref
    ∧ (∀ p : String, (splitOnChar '/' p.data).length ≠ 5 → rewritePath p = p)
    ∧ (∀ req : Req, (part001.forwardReq dockerHub req).1
        = dockerHub ++ rewritePath req.path ++ req.search) := by
  have e : ("/v2/" ++ name ++ "/" ++ kind ++ "/" ++ ref).data
      = '/' :: ("v2".data ++ '/' :: (name.data ++ '/' :: (kind.data ++ '/' :: ref.data))) := by
    simp only [String.data_append, List.append_assoc]; rfl
  have h1 : splitOnChar '/' (("/v2/" ++ name ++ "/" ++ kind ++ "/" ++ ref).data)
      = [[], "v2".data, name.data, kind.data, ref.data] := by
    rw [e]
    rw [show ('/' :: ("v2".data ++ '/' :: (name.data ++ '/' :: (kind.data ++ '/' :: ref.data))))
        = [] ++ '/' :: ("v2".data ++ '/' :: (name.data ++ '/' :: (kind.data ++ '/' :: ref.data))) by rfl]
    rw [splitOnChar_append _ (by decide), splitOnChar_append _ (by decide),
      splitOnChar_append _ hn, splitOnChar_append _ hk,
      splitOnChar_of_not_mem hr]
  have hcond : v2LibCond ("/v2/" ++ name ++ "/" ++ kind ++ "/" ++ ref) := by
    rw [v2LibCond, h1]
    exact ⟨rfl, rfl, hn⟩
  refine ⟨?_, ?_, ?_⟩
  · apply strEq_of_data
    rw [rewritePath, if_pos hcond]
    rw [v2LibPath.eq_def, h1]
    simp only [insertAt2, List.take, List.drop, joinWith]
    simp [String.data_append]
  · intro p hlen
    rw [rewritePath, if_neg]
    intro hc
    exact hlen hc.1
  · intro req
    simp [part001.forwardReq, part001.currentPath]

/-- Witness for C3 at name nginx, kind manifests, ref latest, and at the
already-namespaced six-component path, which is left unchanged. -/
theorem C3_witness :
    rewritePath ("/v2/" ++ "nginx" ++ "/" ++ "manifests" ++ "/" ++ "latest")
      = "/v2/library/" ++ "nginx" ++ "/" ++ "manifests" ++ "/" ++ "latest"
    ∧ rewritePath "/v2/library/nginx/manifests/latest"
      = "/v2/library/nginx/manifests/latest" :=
  ⟨(C3_library_path_rewrite "nginx" "manifests" "latest"
      (by decide) (by decide) (by decide)).1,
   (C3_library_path_rewrite "nginx" "manifests" "latest"
      (by decide) (by decide) (by decide)).2.1
      "/v2/library/nginx/manifests/latest" (by decide)⟩

/-- Claim C4: for every scope of the form repository:(name):pull whose
name contains no slash, the Docker Hub scope rewrite shared by every
variant produces repository:library/(name):pull; a scope whose name
contains a slash is left unchanged. -/
theorem C4_scope_rewrite (name : String) (hc : (':' : Char) ∉ name.data) :
    ((('/' : Char) ∉ name.data) →
      rewriteScope ("repository:" ++ name ++ ":pull")
        = "repository:library/" ++ name ++ ":pull")
    ∧ ((('/' : Char) ∈ name.data) →
      rewriteScope ("repository:" ++ name ++ ":pull")
        = "repository:" ++ name ++ ":pull")
    ∧ (∀ s : String, s ≠ "" →
        effectiveScope true (some s) = some (rewriteScope s)) := by
  have e : ("repository:" ++ name ++ ":pull").data
      = "repository".data ++ ':' :: (name.data ++ ':' :: "pull".data) := by
    simp only [String.data_append, List.append_assoc]; rfl
  have h1 : splitOnChar ':' (("repository:" ++ name ++ ":pull").data)
      = ["repository".data, name.data, "pull".data] := by
    rw [e, splitOnChar_append _ (by decide), splitOnChar_append _ hc,
      splitOnChar_of_not_mem (by decide : (':' : Char) ∉ "pull".data)]
  refine ⟨?_, ?_, ?_⟩
  · intro hs
    apply strEq_of_data
    rw [rewriteScope]
    simp only [h1]
    rw [if_pos]
    · simp only [List.take, List.drop, joinWith]
      simp [String.data_append]
    · refine ⟨by simp, by simpa using hs⟩
  · intro hs
    rw [rewriteScope]
    simp only [h1]
    rw [if_neg]
    intro hcond
    exact absurd (by simpa using hcond.2) (by simpa using hs)
  · intro s hs
    simp [effectiveScope, hs]

/-- Witness for C4 at name nginx (rewritten) and name library/nginx
(unchanged). -/
theorem C4_witness :
    rewriteScope ("repository:" ++ "nginx" ++ ":pull")
      = "repository:library/" ++ "nginx" ++ ":pull"
    ∧ rewriteScope ("repository:" ++ "library/nginx" ++ ":pull")
      = "repository:" ++ "library/nginx" ++ ":pull" :=
  ⟨(C4_scope_rewrite "nginx" (by decide)).1 (by decide),
   (C4_scope_rewrite "library/nginx" (by decide)).2.1 (by decide)⟩

/-- Claim C10: in debug mode, src/api/proxy.js resolves every hostname
absent from the route table to TARGET_UPSTREAM and, when that value is
non-empty, forwards the request to it instead of producing the 404
not-found response. -/
theorem C10_debug_target (cfg : Cfg) (req : Req)
    (hm : cfg.mode = "debug")
    (hmiss : (proxyJs.routes cfg).lookup req.hostname = none)
    (ht : cfg.target ≠ "") :
    proxyJs.routeByHosts cfg req.hostname = cfg.target
    ∧ (∀ r : Resp, proxyJs.dispatch cfg req ≠ proxyJs.Dispatch.notFound r)
    ∧ (req.path ≠ "/" → req.path ≠ "/v2/" → req.path ≠ "/v2/auth" →
        cfg.target ≠ dockerHub →
        proxyJs.dispatch cfg req
          = proxyJs.Dispatch.forward (cfg.target ++ req.path ++ req.search) req.method false) := by
  have hr : proxyJs.routeByHosts cfg req.hostname = cfg.target := by
    rw [proxyJs.routeByHosts, hmiss]
    simp [hm]
  refine ⟨hr, ?_, fun h1 h2 h3 h4 => ?_⟩
  · intro r hcontra
    rw [proxyJs.dispatch.eq_def] at hcontra
    by_cases h1 : req.path = "/"
    · simp only [if_pos h1] at hcontra
      exact proxyJs.Dispatch.noConfusion hcontra
    · simp only [if_neg h1, hr, if_neg ht] at hcontra
      by_cases h2 : req.path = "/v2/"
      · simp only [if_pos h2] at hcontra
        exact proxyJs.Dispatch.noConfusion hcontra
      · simp only [if_neg h2] at hcontra
        by_cases h3 : req.path = "/v2/auth"
        · simp only [if_pos h3] at hcontra
          exact proxyJs.Dispatch.noConfusion hcontra
        · simp only [if_neg h3] at hcontra
          by_cases h4 : (cfg.target == dockerHub
              && (splitOnChar '/' req.path.data).length == 5) = true
          · simp only [if_pos h4] at hcontra
            exact proxyJs.Dispatch.noConfusion hcontra
          · simp only [if_neg h4] at hcontra
            exact proxyJs.Dispatch.noConfusion hcontra
  · have hb : (cfg.target == dockerHub) = false := beq_eq_false_iff_ne.mpr h4
    rw [proxyJs.dispatch.eq_def]
    simp [h1, h2, h3, hr, ht, hb]

/-- Witness for C10: in the debug configuration, the unknown hostname is
routed to the target upstream and the request is forwarded there. -/
theorem C10_witness :
    proxyJs.routeByHosts cfgDebug reqUnknownHost.hostname = cfgDebug.target
    ∧ proxyJs.dispatch cfgDebug reqUnknownHost
      = proxyJs.Dispatch.forward
          (cfgDebug.target ++ reqUnknownHost.path ++ reqUnknownHost.search)
          reqUnknownHost.method false :=
  have h := C10_debug_target cfgDebug reqUnknownHost rfl (by decide) (by decide)
  ⟨h.1, h.2.2 (by decide) (by decide) (by decide) (by decide)⟩

/-- Claim C7: from the challenge header Bearer
realm="https://issuer.example/token",service="registry.example" the
src/api/proxy.js relay parses realm and service, and fetchToken issues a
GET to the realm with the service parameter set, the scope parameter
included exactly when the client supplied a non-empty one, and the
client's Authorization header forwarded exactly when supplied. -/
theorem C7_token_request :
    proxyJs.parseAuthenticate
        "Bearer realm=\"https://issuer.example/token\",service=\"registry.example\""
      = Except.ok ⟨"https://issuer.example/token", "registry.example"⟩
    ∧ (∀ auth : Option String,
        proxyJs.fetchToken ⟨"https://issuer.example/token", "registry.example"⟩ none auth
          = ⟨"https://issuer.example/token", [("service", "registry.example")],
             match auth with
             | some a => hset [] "Authorization" a
             | none => []⟩)
    ∧ (∀ (s : String) (auth : Option String), s ≠ "" →
        proxyJs.fetchToken ⟨"https://issuer.example/token", "registry.example"⟩ (some s) auth
          = ⟨"https://issuer.example/token",
             [("service", "registry.example"), ("scope", s)],
             match auth with
             | some a => hset [] "Authorization" a
             | none => []⟩) := by
  refine ⟨by rfl, ?_, ?_⟩
  · intro auth
    cases auth <;>
      simp [proxyJs.fetchToken, realmParams, realmBase, paramSet, splitFirstAt]
  · intro s auth hs
    cases auth <;>
      simp [proxyJs.fetchToken, realmParams, realmBase, paramSet, splitFirstAt, hs]

/-- Witness for C7: a concrete non-empty scope is put on the token
request while the Authorization header stays absent when not supplied. -/
theorem C7_witness :
    proxyJs.fetchToken ⟨"https://issuer.example/token", "registry.example"⟩
        (some "repository:library/nginx:pull") none
      = ⟨"https://issuer.example/token",
         [("service", "registry.example"), ("scope", "repository:library/nginx:pull")],
         []⟩ :=
  C7_token_request.2.2 "repository:library/nginx:pull" none (by decide)

/-- Claim C6 (amended): every hostname present in a route table resolves
to its configured upstream origin; on a miss, the part_000 handler
returns a 404 whose JSON body contains the message Host Not Found and
the unresolved hostname, while src/api/proxy.js (outside debug mode)
returns a 404 whose JSON body is the route-table listing instead. -/
theorem C6_routing (cfg : Cfg) (req : Req) :
    (∀ u, (proxyJs.routes cfg).lookup req.hostname = some u →
        proxyJs.routeByHosts cfg req.hostname = u)
    ∧ ((part000.routes cfg).lookup req.hostname = none →
        ∃ b : String,
          part000.dispatch cfg req = part000.Dispatch.notFound ⟨404, [], some b⟩
          ∧ List.IsInfix "Host Not Found".data b.data
          ∧ List.IsInfix req.hostname.data b.data)
    ∧ ((proxyJs.routes cfg).lookup req.hostname = none → cfg.mode ≠ "debug" →
        req.path ≠ "/" →
        proxyJs.dispatch cfg req
          = proxyJs.Dispatch.notFound ⟨404, [], some (proxyJs.jsonRoutes cfg)⟩) := by
  refine ⟨?_, ?_, ?_⟩
  · intro u h
    rw [proxyJs.routeByHosts, h]
  · intro h
    refine ⟨"\x7b\"message\":\"Host Not Found\",\"hostname\":\"" ++ req.hostname
      ++ "\",\"tip\":\"请检查环境变量 CUSTOM_DOMAIN 配置是否正确\"\x7d", ?_, ?_, ?_⟩
    · rw [part000.dispatch.eq_def]
      simp [h, part000.notFoundResp]
    · refine ⟨"\x7b\"message\":\"".data,
        ("\",\"hostname\":\"" ++ req.hostname
          ++ "\",\"tip\":\"请检查环境变量 CUSTOM_DOMAIN 配置是否正确\"\x7d").data, ?_⟩
      simp only [String.data_append, List.append_assoc]
      rfl
    · refine ⟨"\x7b\"message\":\"Host Not Found\",\"hostname\":\"".data,
        ("\",\"tip\":\"请检查环境变量 CUSTOM_DOMAIN 配置是否正确\"\x7d").data, ?_⟩
      simp only [String.data_append, List.append_assoc]
  · intro h hdm h1
    have hr : proxyJs.routeByHosts cfg req.hostname = "" := by
      rw [proxyJs.routeByHosts, h]
      simp [hdm]
    rw [proxyJs.dispatch.eq_def]
    simp [h1, hr]

/-- Witness for C6: the docker hostname resolves to Docker Hub; the
unknown hostname yields the two 404 shapes. -/
theorem C6_witness :
    proxyJs.routeByHosts cfgProd "docker.example.com" = dockerHub
    ∧ (∃ b : String,
        part000.dispatch cfgProd reqUnknownHost
          = part000.Dispatch.notFound ⟨404, [], some b⟩
        ∧ List.IsInfix "Host Not Found".data b.data
        ∧ List.IsInfix reqUnknownHost.hostname.data b.data)
    ∧ proxyJs.dispatch cfgProd reqUnknownHost
      = proxyJs.Dispatch.notFound ⟨404, [], some (proxyJs.jsonRoutes cfgProd)⟩ :=
  ⟨(C6_routing cfgProd { reqUnknownHost with hostname := "docker.example.com" }).1
      dockerHub (by decide),
   (C6_routing cfgProd reqUnknownHost).2.1 (by decide),
   (C6_routing cfgProd reqUnknownHost).2.2 (by decide) (by decide) (by decide)⟩

set_option maxRecDepth 8192 in
/-- Counterexample for C6 as stated: in src/api/proxy.js the unknown
hostname produces a 404 whose body is the route-table JSON, which
contains neither the message Host Not Found nor the hostname; and in
debug mode it is not a 404 at all but a forward to TARGET_UPSTREAM. -/
theorem C6_counterexample :
    proxyJs.dispatch cfgProd reqUnknownHost
      = proxyJs.Dispatch.notFound ⟨404, [], some (proxyJs.jsonRoutes cfgProd)⟩
    ∧ containsSub (proxyJs.jsonRoutes cfgProd) "Host Not Found" = false
    ∧ containsSub (proxyJs.jsonRoutes cfgProd) "evil.example.com" = false
    ∧ proxyJs.dispatch cfgDebug reqUnknownHost
      = proxyJs.Dispatch.forward
          ("http://localhost:5000" ++ reqUnknownHost.path ++ "") "GET" false := by
  exact ⟨by rfl, by decide, by decide, by rfl⟩

/-- Claim C2 (amended): an upstream 401 on a forwarded request is never
passed through verbatim; src/api/proxy.js replaces it by its own 401
whose WWW-Authenticate realm host is the inbound request's own host —
never the upstream's — with realm scheme https except in debug mode,
where it is http, and with JSON body message UNAUTHORIZED; the part_000
handler's own 401 always uses https and the inbound hostname. -/
theorem C2_proxy_401 (cfg : Cfg) (req : Req) (hub : Bool) (resp : UResp)
    (h401 : resp.status = 401) :
    proxyJs.afterForward cfg req hub resp
      = Step.done (proxyJs.responseUnauthorized cfg req.host)
    ∧ hget (proxyJs.responseUnauthorized cfg req.host).headers "Www-Authenticate"
        = some ("Bearer realm=\"" ++ (if cfg.mode = "debug" then "http" else "https")
            ++ "://" ++ req.host ++ "/v2/auth\",service=\"vercel-docker-proxy\"")
    ∧ (proxyJs.responseUnauthorized cfg req.host).body
        = some "\x7b\"message\":\"UNAUTHORIZED\"\x7d"
    ∧ hget (part000.responseUnauthorized req.hostname).headers "Www-Authenticate"
        = some ("Bearer realm=\"https://" ++ req.hostname
            ++ "/v2/auth\",service=\"vercel-docker-proxy\"")
    ∧ (part000.responseUnauthorized req.hostname).body
        = some "\x7b\"message\":\"UNAUTHORIZED\"\x7d" := by
  refine ⟨?_, ?_, rfl, ?_, rfl⟩
  · simp [proxyJs.afterForward, h401]
  · have hv : ("Bearer realm=\""
        ++ ((if cfg.mode = "debug" then "http" else "https") ++ "://" ++ req.host ++ "/v2/auth")
        ++ "\",service=\"vercel-docker-proxy\"")
        = "Bearer realm=\"" ++ (if cfg.mode = "debug" then "http" else "https")
            ++ "://" ++ req.host ++ "/v2/auth\",service=\"vercel-docker-proxy\"" := by
      apply strEq_of_data
      simp only [String.data_append, List.append_assoc]
      rfl
    rw [proxyJs.responseUnauthorized]
    simp only []
    rw [hv]
    simp [hget, hset, List.lookup]
  · have hv : ("Bearer realm=\"" ++ ("https://" ++ req.hostname ++ "/v2/auth")
        ++ "\",service=\"vercel-docker-proxy\"")
        = "Bearer realm=\"https://" ++ req.hostname
            ++ "/v2/auth\",service=\"vercel-docker-proxy\"" := by
      apply strEq_of_data
      simp only [String.data_append, List.append_assoc]
      rfl
    rw [part000.responseUnauthorized]
    simp only []
    rw [hv]
    rw [hget_hset_ne _ _ _ _ (by decide)]
    rw [hget_hset_eq _ _ _ _ rfl]

/-- Witness for C2: a concrete upstream 401 is replaced by the proxy's
own 401. -/
theorem C2_witness :
    u401.status = 401
    ∧ proxyJs.afterForward cfgProd reqGet true u401
        = Step.done (proxyJs.responseUnauthorized cfgProd reqGet.host) :=
  ⟨rfl, (C2_proxy_401 cfgProd reqGet true u401 rfl).1⟩

set_option maxRecDepth 8192 in
/-- Counterexample for C2 as stated: in debug mode the realm scheme of
the src/api/proxy.js 401 is http, not the claimed https. -/
theorem C2_counterexample :
    hget (proxyJs.responseUnauthorized cfgDebug "docker.example.com").headers
        "WWW-Authenticate"
      = some "Bearer realm=\"http://docker.example.com/v2/auth\",service=\"vercel-docker-proxy\""
    ∧ ("Bearer realm=\"http://docker.example.com/v2/auth\",service=\"vercel-docker-proxy\""
        : String)
      ≠ "Bearer realm=\"https://docker.example.com/v2/auth\",service=\"vercel-docker-proxy\"" := by
  exact ⟨by decide, by decide⟩

/-- Claim C5 (amended): when the anonymous probe's answer has no
WWW-Authenticate header, both the part_000 relay and the src/api/proxy.js
relay return it unchanged; when the header is present on a 401 but yields
fewer than two quoted values, the part_000 relay returns the answer
unchanged while src/api/proxy.js raises the Invalid Www-Authenticate
Header error instead. -/
theorem C5_auth_fallback (hub : Bool) (scope auth : Option String) (resp : UResp) :
    (hget resp.headers "WWW-Authenticate" = none →
      part000.handleAuthStep hub scope auth resp = AuthOutcome.pass resp
      ∧ proxyJs.authFlow hub scope auth resp = AuthOutcome.pass resp)
    ∧ (∀ s, resp.status = 401 → hget resp.headers "WWW-Authenticate" = some s →
        (extractQuoted s).length < 2 →
        part000.handleAuthStep hub scope auth resp = AuthOutcome.pass resp
        ∧ proxyJs.authFlow hub scope auth resp
            = AuthOutcome.err "Invalid Www-Authenticate Header") := by
  constructor
  · intro h
    by_cases hs : resp.status = 401
    · constructor
      · rw [part000.handleAuthStep.eq_def]
        simp [hs, h]
      · rw [proxyJs.authFlow.eq_def]
        simp [hs, h]
    · constructor
      · rw [part000.handleAuthStep.eq_def]
        simp [hs]
      · rw [proxyJs.authFlow.eq_def]
        simp [hs]
  · intro s hs h hlen
    constructor
    · rw [part000.handleAuthStep.eq_def]
      simp [hs, h, hlen]
    · rw [proxyJs.authFlow.eq_def]
      simp [hs, h, proxyJs.parseAuthenticate, hlen]

/-- Witness for C5: the challenge-less probe is passed through, and the
single-quoted-value challenge is passed through by part_000. -/
theorem C5_witness :
    (part000.handleAuthStep true none none ⟨401, [], ""⟩
        = AuthOutcome.pass ⟨401, [], ""⟩
      ∧ proxyJs.authFlow true none none ⟨401, [], ""⟩
        = AuthOutcome.pass ⟨401, [], ""⟩)
    ∧ part000.handleAuthStep true none none uBadChallenge
        = AuthOutcome.pass uBadChallenge :=
  ⟨(C5_auth_fallback true none none ⟨401, [], ""⟩).1 rfl,
   ((C5_auth_fallback true none none uBadChallenge).2
      "Bearer realm=\"https://auth.example\"" rfl (by decide) (by decide)).1⟩

/-- Counterexample for C5 as stated: on a 401 whose challenge yields a
single quoted value, src/api/proxy.js raises instead of propagating the
upstream response. -/
theorem C5_counterexample :
    proxyJs.authFlow true none none uBadChallenge
      = AuthOutcome.err "Invalid Www-Authenticate Header"
    ∧ ∀ r : UResp,
        AuthOutcome.err "Invalid Www-Authenticate Header" ≠ AuthOutcome.pass r := by
  refine ⟨by decide, fun r h => AuthOutcome.noConfusion h⟩

/-- Claim C9 (amended): in the part_000 handler, any forwarded request
answered with 301, 302, 307 or 308 and a Location header is re-issued to
the Location target with the client's original method, and the resolved
response flows through fixResponse; in src/api/proxy.js the resolution
runs only for Docker Hub on 301, 302 or 307, and the re-issued request
always uses method GET. -/
theorem C9_redirect_resolver (req : Req) (resp : UResp) (loc : String)
    (hst : resp.status = 301 ∨ resp.status = 302 ∨ resp.status = 307 ∨ resp.status = 308)
    (hloc : hget resp.headers "Location" = some loc) :
    part000.afterForward req resp
      = Step.refetch loc req.method (some (req.authorization.getD ""))
    ∧ (∀ blob : UResp, part000.resolveRedirect blob req.method
        = part000.fixResponse blob req.method)
    ∧ (∀ cfg : Cfg, (resp.status = 301 ∨ resp.status = 302 ∨ resp.status = 307) →
        proxyJs.afterForward cfg req true resp = Step.refetch loc "GET" none) := by
  refine ⟨?_, fun blob => rfl, ?_⟩
  · rw [part000.afterForward.eq_def]
    rcases hst with h | h | h | h <;> simp [h, hloc]
  · intro cfg h3
    have hne : resp.status ≠ 401 := by rcases h3 with h | h | h <;> omega
    rw [proxyJs.afterForward.eq_def]
    rcases h3 with h | h | h <;> simp [h, hne, hloc]

/-- Witness for C9: the part_000 resolver re-fetches a concrete 302
Location with the client's HEAD method and normalizes via fixResponse. -/
theorem C9_witness :
    part000.afterForward reqHead uBlobRedirect
      = Step.refetch "https://cdn.example/blob" "HEAD" (some "")
    ∧ part000.resolveRedirect uGetManifest "HEAD"
      = part000.fixResponse uGetManifest "HEAD" :=
  have h := C9_redirect_resolver reqHead uBlobRedirect "https://cdn.example/blob"
    (Or.inr (Or.inl rfl)) (by decide)
  ⟨h.1, h.2.1 uGetManifest⟩

set_option maxRecDepth 8192 in
/-- Counterexample for C9 as stated: src/api/proxy.js re-issues a Docker
Hub 302 with method GET even for a HEAD client, and does not resolve a
308 (or any non-Docker-Hub redirect) at all. -/
theorem C9_counterexample :
    proxyJs.afterForward cfgProd reqHead true uBlobRedirect
      = Step.refetch "https://cdn.example/blob" "GET" none
    ∧ reqHead.method ≠ "GET"
    ∧ proxyJs.afterForward cfgProd reqGet false uRedirect308
      = Step.done (proxyJs.finalize uRedirect308) := by
  exact ⟨by decide, by decide, by rfl⟩

/-- Claim C1 (amended): the buffering normalizers set Content-Length to
the exact byte length of the materialized body: part_003's fixResponse
on every response and its own 401, and part_000's fixResponse on JSON or
manifest responses, where a HEAD answer carries no body yet keeps the
Content-Length of the materialized body (not 0); the src/api/proxy.js
401, by contrast, sets no Content-Length of its own. -/
theorem C1_content_length (resp : UResp) (method host : String) (cfg : Cfg)
    (hjson : (containsSub ((hget resp.headers "content-type").getD "") "json"
        || containsSub ((hget resp.headers "content-type").getD "") "manifest") = true) :
    hget (part003.fixResponse resp method).headers "Content-Length"
      = some (toString (utf8Size resp.body))
    ∧ hget (part003.responseUnauthorized host).headers "Content-Length"
      = some (toString (utf8Size "\x7b\"message\":\"UNAUTHORIZED\"\x7d"))
    ∧ (part000.fixResponse resp "HEAD").body = none
    ∧ hget (part000.fixResponse resp "HEAD").headers "Content-Length"
      = some (toString (utf8Size resp.body))
    ∧ hget (proxyJs.responseUnauthorized cfg host).headers "Content-Length" = none := by
  refine ⟨?_, ?_, ?_, ?_, ?_⟩
  · simp only [part003.fixResponse]
    rw [hget_hset_ne _ _ _ _ (by decide), hget_hdel_ne _ _ _ (by decide),
      hget_hset_eq _ _ _ _ rfl]
  · simp only [part003.responseUnauthorized]
    rw [hget_hset_ne _ _ _ _ (by decide), hget_hset_eq _ _ _ _ rfl]
  · simp only [part000.fixResponse]
    simp [hjson]
  · simp only [part000.fixResponse]
    simp only [hjson, if_pos, if_true]
    rw [hget_hset_eq _ _ _ _ rfl]
  · simp only [proxyJs.responseUnauthorized]
    rw [hget_hset_ne _ _ _ _ (by decide)]
    rfl

/-- Witness for C1: a concrete JSON manifest response and the concrete
401 bodies. -/
theorem C1_witness :
    hget (part003.fixResponse uGetManifest "GET").headers "Content-Length"
      = some (toString (utf8Size uGetManifest.body))
    ∧ (part000.fixResponse uGetManifest "HEAD").body = none
    ∧ hget (proxyJs.responseUnauthorized cfgProd "docker.example.com").headers
        "Content-Length" = none :=
  have h := C1_content_length uGetManifest "GET" "docker.example.com" cfgProd (by decide)
  ⟨h.1, h.2.2.1, h.2.2.2.2⟩

set_option maxRecDepth 8192 in
/-- Counterexample for C1 as stated: the src/api/proxy.js 401 carries no
Content-Length header at all, and a part_000 HEAD answer with an absent
body carries Content-Length 2, not 0. -/
theorem C1_counterexample :
    hget (proxyJs.responseUnauthorized cfgProd "docker.example.com").headers
        "Content-Length" = none
    ∧ (part000.fixResponse uGetManifest "HEAD").body = none
    ∧ hget (part000.fixResponse uGetManifest "HEAD").headers "Content-Length"
        = some "2"
    ∧ ("2" : String) ≠ "0" := by
  exact ⟨by decide, by decide, by decide, by decide⟩

/-- Claim C8 (amended): the part_001 handler sends GET upstream whatever
the client's method, so a client HEAD and a client GET produce the same
upstream request; forceContentLength then sets Content-Length to the
exact byte length of the buffered body, which the platform strips for
HEAD; part_000, which forwards the client's method, likewise recomputes
the Content-Length of a JSON or manifest answer from the body it
received and drops the body for HEAD. -/
theorem C8_head_content_length (upstream : String) (req : Req) (resp : UResp)
    (hjson : (containsSub ((hget resp.headers "content-type").getD "") "json"
        || containsSub ((hget resp.headers "content-type").getD "") "manifest") = true) :
    (part001.forwardReq upstream req).2 = "GET"
    ∧ (part001.forwardReq upstream { req with method := "GET" }).1
        = (part001.forwardReq upstream req).1
    ∧ hget (part001.forceContentLength resp).headers "Content-Length"
        = some (toString (utf8Size resp.body))
    ∧ (part001.forceContentLength resp).body = some resp.body
    ∧ (part000.fixResponse resp "HEAD").body = none
    ∧ hget (part000.fixResponse resp "HEAD").headers "Content-Length"
        = some (toString (utf8Size resp.body)) := by
  refine ⟨rfl, rfl, ?_, rfl, ?_, ?_⟩
  · simp only [part001.forceContentLength]
    rw [hget_hdel_ne _ _ _ (by decide), hget_hset_eq _ _ _ _ rfl]
  · simp only [part000.fixResponse]
    simp [hjson]
  · simp only [part000.fixResponse]
    simp only [hjson, if_pos, if_true]
    rw [hget_hset_eq _ _ _ _ rfl]

/-- Witness for C8: the concrete HEAD manifest request and upstream
manifest response. -/
theorem C8_witness :
    (part001.forwardReq dockerHub reqHead).2 = "GET"
    ∧ (part001.forwardReq dockerHub { reqHead with method := "GET" }).1
        = (part001.forwardReq dockerHub reqHead).1
    ∧ hget (part001.forceContentLength uGetManifest).headers "Content-Length"
        = some (toString (utf8Size uGetManifest.body)) :=
  have h := C8_head_content_length dockerHub reqHead uGetManifest (by decide)
  ⟨h.1, h.2.1, h.2.2.1⟩

set_option maxRecDepth 8192 in
/-- Counterexample for C8 as stated: part_000 forwards the client HEAD
verbatim, and its normalizer recomputes Content-Length from the empty
HEAD body, producing 0 where the corresponding GET produces 2. -/
theorem C8_counterexample :
    part000.dispatch cfgProd reqHead
      = part000.Dispatch.forward ("https://registry-1.docker.io" ++ reqHead.path ++ "") "HEAD"
    ∧ (part000.fixResponse uHeadManifest "HEAD").body = none
    ∧ hget (part000.fixResponse uHeadManifest "HEAD").headers "Content-Length"
        = some "0"
    ∧ hget (part000.fixResponse uGetManifest "GET").headers "Content-Length"
        = some "2"
    ∧ (part000.fixResponse uGetManifest "GET").body = some "\x7b\x7d"
    ∧ ("0" : String) ≠ "2" := by
  exact ⟨by rfl, by decide, by decide, by decide, by decide, by decide⟩
